import Mathlib

/-!
Shallow embedding of the range-fetch IPC worker in
src/handlers/delta_downloader.c (functions wrdata_callback,
delta_callback_headers and the request loop of start_delta_downloader).

Fixed-size byte buffers are modelled as functions from byte index to byte
value, so that a memcpy overwrites exactly the copied prefix and leaves the
rest of the reused buffer unchanged, as in the C source.  The IPC write
syscalls are modelled by an oracle giving the outcome of each write in
program order; machine integers are modelled as Nat, with the signed return
value of read modelled as Int.
-/

namespace DeltaDownloader

/-- Modelled from the spec: delta_handler.h (defining the Request and Answer
wire layout) is not under src; the spec fixes only a fixed maximum payload
capacity for Answer frames, so a concrete capacity of 16384 bytes is used.
No claim depends on the particular value. -/
def RANGE_PAYLOAD_SIZE : Nat := 16384

/-- Modelled from the spec: Answer frame type tags from the missing
delta_handler.h, named as in the source uses. -/
inductive AnswerType where
  | RANGE_DATA
  | RANGE_HEADERS
  | RANGE_COMPLETED
  | RANGE_ERROR
deriving DecidableEq

/-- Modelled from the spec: the Answer frame of the missing delta_handler.h,
with the fields the source fills (id, type, len, crc, data). The payload is
a fixed-capacity buffer, modelled as a function from index to byte. -/
structure range_answer_t where
  id : Nat
  type : AnswerType
  len : Nat
  crc : Nat
  data : Nat → Nat

instance : Inhabited range_answer_t :=
  ⟨⟨0, AnswerType.RANGE_ERROR, 0, 0, fun _ => 0⟩⟩

/-- Modelled from the spec: the Request frame of the missing delta_handler.h,
with id, the two unsigned length fields and the payload buffer holding the
URL string, a NUL separator and the range string. -/
structure range_request_t where
  id : Nat
  urllen : Nat
  rangelen : Nat
  data : List Nat

/-- Modelled from the spec: zlib (an external collaborator) provides crc32.
This is the standard reflected 32-bit cyclic redundancy check with polynomial
0xEDB88320 and the usual pre- and post-inversion, one input bit per step,
exactly the value zlib returns for crc32(c, buf, len) folded byte by byte. -/
def crc32_update (c b : Nat) : Nat :=
  (List.range 8).foldl
    (fun acc _ => if acc % 2 = 1 then 0xEDB88320 ^^^ (acc / 2) else acc / 2)
    (c ^^^ (b % 256))

/-- Modelled from the spec: zlib crc32 over a byte list, with starting value
as first argument; the source always calls it with starting value 0. -/
def crc32 (start : Nat) (bytes : List Nat) : Nat :=
  (bytes.foldl crc32_update (start ^^^ 0xFFFFFFFF)) ^^^ 0xFFFFFFFF

/-- memcpy into a fixed reused buffer: the first n bytes come from src and
the remaining bytes keep the previous (stale) contents of dst. -/
def memcpyF (dst src : Nat → Nat) (n : Nat) : Nat → Nat :=
  fun i => if i < n then src i else dst i

/-- A single byte store dst[j] := v into a fixed buffer. -/
def setF (dst : Nat → Nat) (j v : Nat) : Nat → Nat :=
  fun i => if i = j then v else dst i

/-- The first n bytes of a buffer, as a list. -/
def firstBytes (n : Nat) (f : Nat → Nat) : List Nat :=
  (List.range n).map f

/-- Concatenation of the counted payload slices (the first len bytes of the
payload) of a list of frames, in emission order. -/
def concatData (l : List range_answer_t) : List Nat :=
  (l.map (fun a => firstBytes a.len a.data)).flatten

/-- The mutable state of the reused answer object between writes: the data
buffer contents, the last stored crc field, and the index of the next IPC
write in the per-request write-outcome oracle. -/
structure DwlState where
  buf : Nat → Nat
  scrc : Nat
  wcount : Nat

/-- The while loop of wrdata_callback.  fuel is an upper bound on nb used
only to make the recursion structural; every call supplies fuel = nb and
each iteration consumes at least one byte, so the fuel branch for exhaustion
is never reached from wrdata_callback.  Mirrors the source: the chunk length
is min(nbytes, RANGE_PAYLOAD_SIZE), the chunk is copied from the start of
buffer (the source never advances the buffer pointer inside the loop), the
crc is computed over the copied slice, and a failed copy_write makes the
callback return 0 at once. -/
def wrdata_loop (wr : Nat → Bool) (idv : Nat) (buffer : Nat → Nat) :
    Nat → Nat → DwlState → DwlState × List range_answer_t × Bool
  | _, 0, st => (st, [], true)
  | 0, _ + 1, st => (st, [], true)
  | fuel + 1, nb + 1, st =>
    let len := min (nb + 1) RANGE_PAYLOAD_SIZE
    let buf2 := memcpyF st.buf buffer len
    let c := crc32 0 (firstBytes len buf2)
    let ans : range_answer_t := ⟨idv, AnswerType.RANGE_DATA, len, c, buf2⟩
    if wr st.wcount then
      let r := wrdata_loop wr idv buffer fuel (nb + 1 - len) ⟨buf2, c, st.wcount + 1⟩
      (r.1, ans :: r.2.1, r.2.2)
    else
      (⟨buf2, c, st.wcount + 1⟩, [], false)

/-- wrdata_callback of the source.  Returns the new answer-object state, the
list of DATA frames actually delivered over IPC, and the size_t return value
handed back to the transport (size * nmemb on success, 0 to stop). -/
def wrdata_callback (wr : Nat → Bool) (st : DwlState) (idv status : Nat)
    (buffer : Nat → Nat) (size nmemb : Nat) :
    DwlState × List range_answer_t × Nat :=
  let nbytes := nmemb * size
  if nmemb = 0 then (st, [], 0)
  else if status ≠ 206 then (st, [], 0)
  else
    let r := wrdata_loop wr idv buffer nbytes nbytes st
    (r.1, r.2.1, if r.2.2 then size * nmemb else 0)

/-- delta_callback_headers of the source: cap the line to
RANGE_PAYLOAD_SIZE - 2 bytes, copy it, increment len, store a NUL byte at
index len (the post-increment value, as the source does), then write the
frame; a short write makes the callback return 0. -/
def delta_callback_headers (wr : Nat → Bool) (st : DwlState) (idv : Nat)
    (buffer : Nat → Nat) (size nitems : Nat) :
    DwlState × List range_answer_t × Nat :=
  let l := min (size * nitems) (RANGE_PAYLOAD_SIZE - 2)
  let buf2 := memcpyF st.buf buffer l
  let len := l + 1
  let buf3 := setF buf2 len 0
  let ans : range_answer_t := ⟨idv, AnswerType.RANGE_HEADERS, len, st.scrc, buf3⟩
  if wr st.wcount then
    (⟨buf3, st.scrc, st.wcount + 1⟩, [ans], nitems * size)
  else
    (⟨buf3, st.scrc, st.wcount + 1⟩, [], 0)

/-- Modelled from the spec: one callback invocation performed by the
transport collaborator (channel_curl is not under src): either a header line
or a slice of body bytes, each given as a buffer with the two size_t
counts the transport passes to the callback. -/
inductive XferEvent where
  | header (buffer : Nat → Nat) (size nitems : Nat)
  | body (buffer : Nat → Nat) (size nmemb : Nat)

/-- Modelled from the spec: the transport collaborator seen through its
open / transfer contract: whether open succeeds, the HTTP response status,
the callback invocations the transfer performs, and whether the transfer
itself succeeds at the transport level when no callback aborts it. -/
structure Transport where
  openOk : Bool
  status : Nat
  events : List XferEvent
  netOk : Bool

/-- Modelled from the spec: the transfer drives the two callbacks in order;
a callback whose return value differs from the byte count it was handed
aborts the transfer with an error result and no further callback runs. -/
def runEvents (wr : Nat → Bool) (idv status : Nat) :
    List XferEvent → DwlState → DwlState × List range_answer_t × Bool
  | [], st => (st, [], true)
  | e :: es, st =>
    match e with
    | XferEvent.header buffer size nitems =>
      let r := delta_callback_headers wr st idv buffer size nitems
      if r.2.2 = nitems * size then
        let r2 := runEvents wr idv status es r.1
        (r2.1, r.2.1 ++ r2.2.1, r2.2.2)
      else (r.1, r.2.1, false)
    | XferEvent.body buffer size nmemb =>
      let r := wrdata_callback wr st idv status buffer size nmemb
      if r.2.2 = size * nmemb then
        let r2 := runEvents wr idv status es r.1
        (r2.1, r.2.1 ++ r2.2.1, r2.2.2)
      else (r.1, r.2.1, false)

/-- The C string contained in a byte buffer: the bytes before the first NUL. -/
def cstr (l : List Nat) : List Nat :=
  l.takeWhile (fun b => b != 0)

/-- The strchr-based absolute-URL test of start_delta_downloader: locate the
first colon of the URL C string; the URL is taken verbatim exactly when the
two bytes after that colon are both a slash.  Reading one or two positions
past the end of the string yields the NUL separator, value 0, as in the
source buffer. -/
def urlAbsCheck (s : List Nat) : Bool :=
  match s.findIdx? (fun b => b == 58) with
  | none => false
  | some i => s.getD (i + 1) 0 == 47 && s.getD (i + 2) 0 == 47

/-- URL composition of start_delta_downloader: with no configured base URL
the request URL is used verbatim; with a base, the base is prepended unless
the strchr test recognises the request URL as absolute. -/
def effectiveUrl (base : Option (List Nat)) (u : List Nat) : List Nat :=
  match base with
  | none => u
  | some b => if urlAbsCheck u then u else b ++ u

/-- Stated from the claim's words, for comparison with the source: the URL
field contains a scheme marker, i.e. some colon whose next two characters
are both a slash. -/
def spec_hasSchemeMarker (s : List Nat) : Bool :=
  (List.range s.length).any (fun i =>
    s.getD i 0 == 58 && s.getD (i + 1) 0 == 47 && s.getD (i + 2) 0 == 47)

/-- Stated from the amended claim's words, for comparison with the source:
the first colon of the URL field exists and is immediately followed by two
slashes inside the field. -/
def spec_firstColonMarker (s : List Nat) : Bool :=
  match s.findIdx? (fun b => b == 58) with
  | none => false
  | some i =>
    decide (i + 2 < s.length) && s.getD (i + 1) 0 == 47 && s.getD (i + 2) 0 == 47

/-- One inbound iteration of the request loop: the return value of the
blocking read (an ssize_t), the request buffer contents after that read,
the transport session this request would drive, the outcome oracle for the
IPC writes performed inside the callbacks (indexed per request), and the
outcome of the final write of the terminal answer. -/
structure Iteration where
  readRet : Int
  req : range_request_t
  tr : Transport
  wr : Nat → Bool
  wrTerminal : Bool

/-- The answer-object state carried across loop iterations: the reused data
buffer and the stale crc field. -/
structure LoopState where
  buf : Nat → Nat
  scrc : Nat

/-- The open / get_file part of one loop iteration: open failure yields no
callback activity and an error result; otherwise the events run and the
result is the conjunction of callback survival and transport success. -/
def transferRun (iter : Iteration) (st : DwlState) :
    DwlState × List range_answer_t × Bool :=
  if iter.tr.openOk then
    let r := runEvents iter.wr iter.req.id iter.tr.status iter.tr.events st
    (r.1, r.2.1, r.2.2 && iter.tr.netOk)
  else
    (st, [], false)

/-- Whether the transfer of an iteration reports overall success. -/
def transferOutcome (iter : Iteration) (st : DwlState) : Bool :=
  (transferRun iter st).2.2

/-- The result of one iteration of the request loop: the Answer frames
delivered over IPC in order, the URL handed to the transport and the range
string (none when the request is not dispatched), the answer-object state
afterwards, and whether the fatal read-error exit was taken. -/
structure IterResult where
  answers : List range_answer_t
  effUrl : Option (List Nat)
  rangeStr : Option (List Nat)
  st : LoopState
  exited : Bool

/-- One iteration of the for loop of start_delta_downloader: a negative read
return is the fatal exit; a request whose urllen + rangelen exceeds the read
return is malformed and skipped with no answer; otherwise the URL is
composed, the transfer is driven, and one terminal answer (COMPLETED on
overall success, ERROR otherwise) with len 0 is written, its delivery
depending on the terminal write outcome. -/
def processIteration (base : Option (List Nat)) (iter : Iteration)
    (ls : LoopState) : IterResult :=
  if iter.readRet < 0 then
    ⟨[], none, none, ls, true⟩
  else if (iter.req.urllen + iter.req.rangelen : Int) > iter.readRet then
    ⟨[], none, none, ls, false⟩
  else
    let u := effectiveUrl base (cstr iter.req.data)
    let rng := cstr (iter.req.data.drop (iter.req.urllen + 1))
    let r := transferRun iter ⟨ls.buf, ls.scrc, 0⟩
    let term : range_answer_t :=
      ⟨iter.req.id,
        if r.2.2 then AnswerType.RANGE_COMPLETED else AnswerType.RANGE_ERROR,
        0, r.1.scrc, r.1.buf⟩
    ⟨r.2.1 ++ (if iter.wrTerminal then [term] else []), some u, some rng,
      ⟨r.1.buf, r.1.scrc⟩, false⟩

/-- The unbounded request loop of start_delta_downloader over a stream of
inbound iterations: the fatal exit stops processing; otherwise the answers
of each iteration are emitted in order before the next request is read. -/
def start_delta_downloader_loop (base : Option (List Nat)) :
    List Iteration → LoopState → List range_answer_t × Bool
  | [], _ => ([], false)
  | it :: its, ls =>
    let r := processIteration base it ls
    if r.exited then ([], true)
    else
      let rest := start_delta_downloader_loop base its r.st
      (r.answers ++ rest.1, rest.2)

/-- Frame type test: terminal frames. -/
def isTerminalType : AnswerType → Bool
  | AnswerType.RANGE_COMPLETED => true
  | AnswerType.RANGE_ERROR => true
  | _ => false

/-- Frame type test: DATA frames. -/
def isDataType : AnswerType → Bool
  | AnswerType.RANGE_DATA => true
  | _ => false

/-- Concrete body buffer used for the multi-frame evaluation: byte 16384 is
one, every other byte is zero. -/
def c2buf : Nat → Nat := fun i => if i = 16384 then 1 else 0

/-- Concrete base URL bytes for the URL-composition evaluation. -/
def mirrorBase : List Nat := [104, 116, 116, 112, 58, 47, 47, 109, 105, 114, 114, 111, 114, 47]

/-- Concrete request URL bytes whose first colon is not followed by two
slashes although a later colon is. -/
def trickyUrl : List Nat := [97, 58, 98, 58, 47, 47, 99]

/-!  Helper lemmas. -/

theorem firstBytes_length (n : Nat) (f : Nat → Nat) :
    (firstBytes n f).length = n := by
  simp [firstBytes]

theorem firstBytes_getD (n k d : Nat) (f : Nat → Nat) (h : k < n) :
    (firstBytes n f).getD k d = f k := by
  simp [firstBytes, List.getD_eq_getElem?_getD, List.getElem?_map,
    List.getElem?_range, h]

theorem getD_append_left (l1 l2 : List Nat) (d : Nat) :
    (l1 ++ l2).getD l1.length d = l2.getD 0 d := by
  induction l1 with
  | nil => rfl
  | cons a t ih => simpa [List.getD] using ih

theorem processIteration_not_exited_eq (base : Option (List Nat))
    (iter : Iteration) (ls : LoopState) (h0 : 0 ≤ iter.readRet)
    (hwf : (iter.req.urllen + iter.req.rangelen : Int) ≤ iter.readRet) :
    processIteration base iter ls =
      ⟨(transferRun iter ⟨ls.buf, ls.scrc, 0⟩).2.1 ++
          (if iter.wrTerminal then
            [⟨iter.req.id,
              if (transferRun iter ⟨ls.buf, ls.scrc, 0⟩).2.2 then
                AnswerType.RANGE_COMPLETED else AnswerType.RANGE_ERROR,
              0, (transferRun iter ⟨ls.buf, ls.scrc, 0⟩).1.scrc,
              (transferRun iter ⟨ls.buf, ls.scrc, 0⟩).1.buf⟩]
          else []),
        some (effectiveUrl base (cstr iter.req.data)),
        some (cstr (iter.req.data.drop (iter.req.urllen + 1))),
        ⟨(transferRun iter ⟨ls.buf, ls.scrc, 0⟩).1.buf,
          (transferRun iter ⟨ls.buf, ls.scrc, 0⟩).1.scrc⟩,
        false⟩ := by
  unfold processIteration
  rw [if_neg (by omega : ¬ iter.readRet < 0),
    if_neg (by omega :
      ¬ (iter.req.urllen + iter.req.rangelen : Int) > iter.readRet)]

theorem spec_firstColonMarker_eq_urlAbsCheck (s : List Nat) :
    spec_firstColonMarker s = urlAbsCheck s := by
  unfold spec_firstColonMarker urlAbsCheck
  rcases hf : s.findIdx? (fun b => b == 58) with _ | i
  · rfl
  · by_cases h2 : i + 2 < s.length
    · simp [h2]
    · have hn : s[i + 2]? = none :=
        List.getElem?_eq_none (by omega)
      simp [h2, hn, List.getD]

theorem wrdata_loop_frames (wr : Nat → Bool) (idv : Nat) (buffer : Nat → Nat) :
    ∀ fuel nb st, ∀ f ∈ (wrdata_loop wr idv buffer fuel nb st).2.1,
      f.id = idv ∧ f.type = AnswerType.RANGE_DATA ∧
        f.crc = crc32 0 (firstBytes f.len f.data) ∧
        f.len ≤ RANGE_PAYLOAD_SIZE := by
  intro fuel
  induction fuel with
  | zero =>
    intro nb st f hf
    cases nb <;> simp [wrdata_loop] at hf
  | succ k ih =>
    intro nb st f hf
    cases nb with
    | zero => simp [wrdata_loop] at hf
    | succ m =>
      simp only [wrdata_loop] at hf
      split at hf
      · simp only [List.mem_cons] at hf
        rcases hf with h | h
        · subst h
          exact ⟨rfl, rfl, rfl, Nat.min_le_right _ _⟩
        · exact ih _ _ f h
      · simp at hf

theorem wrdata_callback_frames (wr : Nat → Bool) (st : DwlState)
    (idv status : Nat) (buffer : Nat → Nat) (size nmemb : Nat) :
    ∀ f ∈ (wrdata_callback wr st idv status buffer size nmemb).2.1,
      f.id = idv ∧ f.type = AnswerType.RANGE_DATA ∧
        f.crc = crc32 0 (firstBytes f.len f.data) ∧
        f.len ≤ RANGE_PAYLOAD_SIZE := by
  intro f hf
  unfold wrdata_callback at hf
  split at hf
  · simp at hf
  · split at hf
    · simp at hf
    · exact wrdata_loop_frames wr idv buffer _ _ _ f hf

theorem wrdata_callback_non206 (wr : Nat → Bool) (st : DwlState)
    (idv status : Nat) (buffer : Nat → Nat) (size nmemb : Nat)
    (h : status ≠ 206) :
    wrdata_callback wr st idv status buffer size nmemb = (st, [], 0) := by
  unfold wrdata_callback
  by_cases h0 : nmemb = 0 <;> simp [h0, h]

theorem headers_frames (wr : Nat → Bool) (st : DwlState) (idv : Nat)
    (buffer : Nat → Nat) (size nitems : Nat) :
    ∀ f ∈ (delta_callback_headers wr st idv buffer size nitems).2.1,
      f.id = idv ∧ f.type = AnswerType.RANGE_HEADERS ∧
        f.len = min (size * nitems) (RANGE_PAYLOAD_SIZE - 2) + 1 := by
  intro f hf
  unfold delta_callback_headers at hf
  split at hf
  · simp only [List.mem_singleton] at hf
    subst hf
    exact ⟨rfl, rfl, rfl⟩
  · simp at hf

theorem runEvents_frames (wr : Nat → Bool) (idv status : Nat) :
    ∀ es st, ∀ f ∈ (runEvents wr idv status es st).2.1,
      f.id = idv ∧
      (f.type = AnswerType.RANGE_DATA ∨ f.type = AnswerType.RANGE_HEADERS) ∧
      (f.type = AnswerType.RANGE_DATA →
        f.crc = crc32 0 (firstBytes f.len f.data)) := by
  intro es
  induction es with
  | nil => intro st f hf; simp [runEvents] at hf
  | cons e es ih =>
    intro st f hf
    cases e with
    | header buffer size nitems =>
      simp only [runEvents] at hf
      split at hf
      · rcases List.mem_append.mp hf with h | h
        · obtain ⟨h1, h2, _⟩ := headers_frames _ _ _ _ _ _ f h
          exact ⟨h1, Or.inr h2, fun hd => by rw [h2] at hd; cases hd⟩
        · exact ih _ f h
      · obtain ⟨h1, h2, _⟩ := headers_frames _ _ _ _ _ _ f hf
        exact ⟨h1, Or.inr h2, fun hd => by rw [h2] at hd; cases hd⟩
    | body buffer size nmemb =>
      simp only [runEvents] at hf
      split at hf
      · rcases List.mem_append.mp hf with h | h
        · obtain ⟨h1, h2, h3, _⟩ := wrdata_callback_frames _ _ _ _ _ _ _ f h
          exact ⟨h1, Or.inl h2, fun _ => h3⟩
        · exact ih _ f h
      · obtain ⟨h1, h2, h3, _⟩ := wrdata_callback_frames _ _ _ _ _ _ _ f hf
        exact ⟨h1, Or.inl h2, fun _ => h3⟩

theorem runEvents_non206_types (wr : Nat → Bool) (idv status : Nat)
    (hs : status ≠ 206) :
    ∀ es st, ∀ f ∈ (runEvents wr idv status es st).2.1,
      f.type = AnswerType.RANGE_HEADERS := by
  intro es
  induction es with
  | nil => intro st f hf; simp [runEvents] at hf
  | cons e es ih =>
    intro st f hf
    cases e with
    | header buffer size nitems =>
      simp only [runEvents] at hf
      split at hf
      · rcases List.mem_append.mp hf with h | h
        · exact (headers_frames _ _ _ _ _ _ f h).2.1
        · exact ih _ f h
      · exact (headers_frames _ _ _ _ _ _ f hf).2.1
    | body buffer size nmemb =>
      simp only [runEvents] at hf
      rw [wrdata_callback_non206 _ _ _ _ _ _ _ hs] at hf
      split at hf
      · simp only [List.nil_append] at hf
        exact ih _ f hf
      · simp at hf

theorem runEvents_non206_fail (wr : Nat → Bool) (idv status : Nat)
    (hs : status ≠ 206) :
    ∀ es st (bf : Nat → Nat) (sz nm : Nat),
      XferEvent.body bf sz nm ∈ es → 0 < sz * nm →
      (runEvents wr idv status es st).2.2 = false := by
  intro es
  induction es with
  | nil => intro st bf sz nm hmem; exact absurd hmem (List.not_mem_nil _)
  | cons e es ih =>
    intro st bf sz nm hmem hpos
    rcases List.mem_cons.mp hmem with he | he
    · subst he
      simp only [runEvents]
      rw [wrdata_callback_non206 _ _ _ _ _ _ _ hs]
      have hne : ¬ ((st, ([] : List range_answer_t), (0 : Nat)).2.2 = sz * nm) := by
        dsimp only
        omega
      rw [if_neg hne]
    · cases e with
      | header buffer size nitems =>
        simp only [runEvents]
        split
        · exact ih _ _ _ _ he hpos
        · rfl
      | body buffer size nmemb =>
        simp only [runEvents]
        split
        · exact ih _ _ _ _ he hpos
        · rfl

theorem transferRun_frames (iter : Iteration) (st : DwlState) :
    ∀ f ∈ (transferRun iter st).2.1,
      f.id = iter.req.id ∧
      (f.type = AnswerType.RANGE_DATA ∨ f.type = AnswerType.RANGE_HEADERS) ∧
      (f.type = AnswerType.RANGE_DATA →
        f.crc = crc32 0 (firstBytes f.len f.data)) := by
  intro f hf
  unfold transferRun at hf
  split at hf
  · exact runEvents_frames _ _ _ _ _ f hf
  · simp at hf

theorem transferRun_non206_types (iter : Iteration) (st : DwlState)
    (hs : iter.tr.status ≠ 206) :
    ∀ f ∈ (transferRun iter st).2.1, f.type = AnswerType.RANGE_HEADERS := by
  intro f hf
  unfold transferRun at hf
  split at hf
  · exact runEvents_non206_types _ _ _ hs _ _ f hf
  · simp at hf

theorem transferOutcome_non206 (iter : Iteration) (st : DwlState)
    (hs : iter.tr.status ≠ 206) (bf : Nat → Nat) (sz nm : Nat)
    (hmem : XferEvent.body bf sz nm ∈ iter.tr.events) (hpos : 0 < sz * nm) :
    transferOutcome iter st = false := by
  unfold transferOutcome transferRun
  split
  · have := runEvents_non206_fail iter.wr iter.req.id iter.tr.status hs
      iter.tr.events st bf sz nm hmem hpos
    simp [this]
  · rfl

/-- Initial answer-object state used in concrete evaluations: an all-zero
buffer, crc field 0, write counter 0. -/
def c2init : DwlState := ⟨(fun _ => 0), 0, 0⟩

/-- Payload buffer of the first frame of the 16385-byte invocation. -/
def c2d1 : Nat → Nat := memcpyF (fun _ => 0) c2buf 16384

/-- Payload buffer of the second frame of the 16385-byte invocation. -/
def c2d2 : Nat → Nat := memcpyF c2d1 c2buf 1

/-- C2: evaluation of wrdata_callback at a single invocation of
16385 = RANGE_PAYLOAD_SIZE + 1 body bytes with status 206 and all IPC writes
succeeding.  The callback does emit ceil(n / RANGE_PAYLOAD_SIZE) = 2 DATA
frames and reports full consumption, but the source never advances the
buffer pointer between frames, so the second frame re-sends the first byte
of the buffer: byte 16384 of the concatenated counted payloads is 0 while
byte 16384 of the input is 1, hence the concatenation does not reproduce the
input bytes and the round-trip part of the claim fails on the code. -/
theorem C2_bug :
    (wrdata_callback (fun _ => true) c2init 5 206 c2buf 1 16385).2.2 = 16385 ∧
    ((wrdata_callback (fun _ => true) c2init 5 206 c2buf 1 16385).2.1.map
      (fun a => a.len)) = [16384, 1] ∧
    (concatData (wrdata_callback (fun _ => true) c2init 5 206 c2buf 1 16385).2.1).length
      = (firstBytes 16385 c2buf).length ∧
    (concatData (wrdata_callback (fun _ => true) c2init 5 206 c2buf 1 16385).2.1).getD 16384 0
      = 0 ∧
    (firstBytes 16385 c2buf).getD 16384 0 = 1 ∧
    concatData (wrdata_callback (fun _ => true) c2init 5 206 c2buf 1 16385).2.1
      ≠ firstBytes 16385 c2buf := by
  have hfr : (wrdata_callback (fun _ => true) c2init 5 206 c2buf 1 16385).2.1
      = [⟨5, AnswerType.RANGE_DATA, 16384, crc32 0 (firstBytes 16384 c2d1), c2d1⟩,
         ⟨5, AnswerType.RANGE_DATA, 1, crc32 0 (firstBytes 1 c2d2), c2d2⟩] := rfl
  have hcd : concatData (wrdata_callback (fun _ => true) c2init 5 206 c2buf 1 16385).2.1
      = firstBytes 16384 c2d1 ++ (firstBytes 1 c2d2 ++ []) := by
    rw [hfr]; rfl
  have e1 : (concatData (wrdata_callback (fun _ => true) c2init 5 206 c2buf 1 16385).2.1).getD
      16384 0 = 0 := by
    have ha := getD_append_left (firstBytes 16384 c2d1) (firstBytes 1 c2d2 ++ []) 0
    rw [firstBytes_length] at ha
    rw [hcd, ha]
    rfl
  have e2 : (firstBytes 16385 c2buf).getD 16384 0 = 1 := by
    rw [firstBytes_getD 16385 16384 0 c2buf (by norm_num)]
    rfl
  refine ⟨rfl, by rw [hfr]; rfl, ?_, e1, e2, ?_⟩
  · rw [hcd]
    simp [firstBytes_length]
  · intro heq
    have hx := congrArg (fun l => l.getD 16384 0) heq
    simp only at hx
    rw [e1, e2] at hx
    exact absurd hx (by norm_num)

/-- C4: evaluation of delta_callback_headers at a 2-byte header line with a
stale answer buffer holding byte 55 everywhere.  The emitted frame has
len = 3, but its counted payload is 72, 88, 55: the byte at index len - 1
is the stale byte 55, not a NUL; the NUL is stored at index len = 3, outside
the counted payload, because the source increments len before storing the
terminator at data[len].  This contradicts the claim, which puts the
terminator at index len - 1 inside the counted payload. -/
theorem C4_bug :
    (let r := delta_callback_headers (fun _ => true) ⟨(fun _ => 55), 0, 0⟩ 9
      (fun i => [72, 88].getD i 0) 1 2
    (r.2.1.map (fun a => (a.type, a.len, a.data 0, a.data 1, a.data 2, a.data 3)))
      = [(AnswerType.RANGE_HEADERS, 3, 72, 88, 55, 0)] ∧ r.2.2 = 2) := by
  decide

/-- C6 counterexample: with base "http://mirror/" and request URL "a:b://c",
the URL field does contain a colon immediately followed by two slashes (the
second colon), yet the source concatenates base and URL because strchr finds
the first colon, which is not followed by two slashes.  The claim's
"exactly when the URL contains no such colon" is therefore false on the
code. -/
theorem C6_counterexample :
    effectiveUrl (some mirrorBase) trickyUrl = mirrorBase ++ trickyUrl ∧
    mirrorBase ++ trickyUrl ≠ trickyUrl ∧
    spec_hasSchemeMarker trickyUrl = true := by
  decide

/-- Answer-object loop state used by the concrete witness evaluations. -/
def wls : LoopState := ⟨fun _ => 0, 0⟩

/-- Concrete iteration for the C1 witness: status 200 with one nonempty body
delivery. -/
def w1iter : Iteration :=
  ⟨8, ⟨7, 2, 4, [97, 0, 98]⟩,
    ⟨true, 200, [XferEvent.body (fun _ => 9) 1 3], true⟩,
    fun _ => true, true⟩

/-- C1: when the HTTP response status is not 206 the data callback consumes
no bytes and emits no DATA frame, returning the stop signal 0 on its first
invocation, and the request loop answers the request with exactly one
terminal Answer of type RANGE_ERROR with len 0, whatever body data the
transport delivers to the callback. -/
theorem C1_thm (base : Option (List Nat)) (iter : Iteration) (ls : LoopState)
    (hs : iter.tr.status ≠ 206) (bf : Nat → Nat) (sz nm : Nat)
    (hmem : XferEvent.body bf sz nm ∈ iter.tr.events) (hpos : 0 < sz * nm)
    (h0 : 0 ≤ iter.readRet)
    (hwf : (iter.req.urllen + iter.req.rangelen : Int) ≤ iter.readRet)
    (hterm : iter.wrTerminal = true) :
    (∀ (wr : Nat → Bool) (st : DwlState) (buffer : Nat → Nat) (size nmemb : Nat),
      0 < nmemb →
      (wrdata_callback wr st iter.req.id iter.tr.status buffer size nmemb).2
        = ([], 0)) ∧
    ((processIteration base iter ls).answers.filter
      (fun a => isDataType a.type)) = [] ∧
    ((processIteration base iter ls).answers.filter
      (fun a => isTerminalType a.type)).map (fun a => (a.id, a.type, a.len))
      = [(iter.req.id, AnswerType.RANGE_ERROR, 0)] := by
  have heq := processIteration_not_exited_eq base iter ls h0 hwf
  have hout : (transferRun iter ⟨ls.buf, ls.scrc, 0⟩).2.2 = false :=
    transferOutcome_non206 iter _ hs bf sz nm hmem hpos
  have hans : (processIteration base iter ls).answers
      = (transferRun iter ⟨ls.buf, ls.scrc, 0⟩).2.1 ++
        [⟨iter.req.id, AnswerType.RANGE_ERROR, 0,
          (transferRun iter ⟨ls.buf, ls.scrc, 0⟩).1.scrc,
          (transferRun iter ⟨ls.buf, ls.scrc, 0⟩).1.buf⟩] := by
    rw [heq]
    simp [hterm, hout]
  have hH := transferRun_non206_types iter ⟨ls.buf, ls.scrc, 0⟩ hs
  refine ⟨?_, ?_, ?_⟩
  · intro wr st buffer size nmemb _
    rw [wrdata_callback_non206 _ _ _ _ _ _ _ hs]
  · rw [hans, List.filter_append]
    have h1 : (transferRun iter ⟨ls.buf, ls.scrc, 0⟩).2.1.filter
        (fun a => isDataType a.type) = [] := by
      rw [List.filter_eq_nil_iff]
      intro a ha
      simp [hH a ha, isDataType]
    rw [h1]
    simp [isTerminalType, isDataType]
  · rw [hans, List.filter_append]
    have h1 : (transferRun iter ⟨ls.buf, ls.scrc, 0⟩).2.1.filter
        (fun a => isTerminalType a.type) = [] := by
      rw [List.filter_eq_nil_iff]
      intro a ha
      simp [hH a ha, isTerminalType]
    rw [h1]
    simp [isTerminalType]

/-- C1 witness: concrete instance of the terminal-answer part of C1_thm. -/
theorem C1_witness :
    ((processIteration none w1iter wls).answers.filter
      (fun a => isTerminalType a.type)).map (fun a => (a.id, a.type, a.len))
      = [(w1iter.req.id, AnswerType.RANGE_ERROR, 0)] :=
  (C1_thm none w1iter wls (by decide) (fun _ => 9) 1 3 (List.Mem.head _)
    (by decide) (by decide) (by decide) rfl).2.2

/-- Concrete iteration for the C3 witness: a successful 3-byte transfer. -/
def w3iter : Iteration :=
  ⟨8, ⟨3, 2, 4, [97, 0, 98]⟩,
    ⟨true, 206, [XferEvent.body (fun i => i + 1) 1 3], true⟩,
    fun _ => true, true⟩

/-- C3: every DATA frame delivered for a request carries as checksum the
32-bit CRC with starting value 0 of exactly the first len bytes of its
payload. -/
theorem C3_thm (base : Option (List Nat)) (iter : Iteration) (ls : LoopState)
    (f : range_answer_t) (hf : f ∈ (processIteration base iter ls).answers)
    (ht : f.type = AnswerType.RANGE_DATA) :
    f.crc = crc32 0 (firstBytes f.len f.data) := by
  by_cases h1 : iter.readRet < 0
  · have hp : processIteration base iter ls = ⟨[], none, none, ls, true⟩ := by
      unfold processIteration
      rw [if_pos h1]
    rw [hp] at hf
    simp at hf
  · by_cases h2 : (iter.req.urllen + iter.req.rangelen : Int) > iter.readRet
    · have hp : processIteration base iter ls = ⟨[], none, none, ls, false⟩ := by
        unfold processIteration
        rw [if_neg h1, if_pos h2]
      rw [hp] at hf
      simp at hf
    · rw [processIteration_not_exited_eq base iter ls (by omega) (by omega)] at hf
      simp only at hf
      rcases List.mem_append.mp hf with h | h
      · exact (transferRun_frames _ _ f h).2.2 ht
      · split at h
        · simp only [List.mem_singleton] at h
          subst h
          rcases hc : (transferRun iter ⟨ls.buf, ls.scrc, 0⟩).2.2 with _ | _ <;>
            simp [hc] at ht
        · simp at h

/-- C3 witness: the first frame of a concrete successful transfer is a DATA
frame whose checksum is the CRC of its counted payload. -/
theorem C3_witness :
    ((processIteration none w3iter wls).answers.getD 0 default).crc
      = crc32 0 (firstBytes
          ((processIteration none w3iter wls).answers.getD 0 default).len
          ((processIteration none w3iter wls).answers.getD 0 default).data) :=
  C3_thm none w3iter wls _ (List.Mem.head _) rfl

/-- Concrete malformed iteration for the C5 witness: urllen + rangelen = 5
exceeds the 4 bytes read. -/
def w5iter : Iteration :=
  ⟨4, ⟨1, 3, 2, []⟩, ⟨true, 206, [], true⟩, fun _ => true, true⟩

/-- Concrete valid follow-up iteration for the C5 witness. -/
def w5next : Iteration :=
  ⟨8, ⟨2, 1, 1, [97, 0, 98]⟩, ⟨false, 206, [], true⟩, fun _ => true, true⟩

theorem processIteration_malformed (base : Option (List Nat))
    (iter : Iteration) (ls : LoopState) (h0 : 0 ≤ iter.readRet)
    (hm : (iter.req.urllen + iter.req.rangelen : Int) > iter.readRet) :
    processIteration base iter ls = ⟨[], none, none, ls, false⟩ := by
  unfold processIteration
  rw [if_neg (by omega), if_pos hm]

theorem loop_skip (base : Option (List Nat)) (iter : Iteration)
    (rest : List Iteration) (ls : LoopState)
    (hp : processIteration base iter ls = ⟨[], none, none, ls, false⟩) :
    start_delta_downloader_loop base (iter :: rest) ls
      = start_delta_downloader_loop base rest ls := by
  simp only [start_delta_downloader_loop, hp]
  simp

/-- C5: a Request whose urllen + rangelen exceeds the bytes actually read is
discarded without any Answer, the loop state is untouched, and the loop
continues with the following Requests exactly as if the malformed one had
not been received. -/
theorem C5_thm (base : Option (List Nat)) (iter : Iteration)
    (rest : List Iteration) (ls : LoopState)
    (h0 : 0 ≤ iter.readRet)
    (hm : (iter.req.urllen + iter.req.rangelen : Int) > iter.readRet) :
    processIteration base iter ls = ⟨[], none, none, ls, false⟩ ∧
    start_delta_downloader_loop base (iter :: rest) ls
      = start_delta_downloader_loop base rest ls := by
  have hp := processIteration_malformed base iter ls h0 hm
  exact ⟨hp, loop_skip base iter rest ls hp⟩

/-- C5 witness: a concrete malformed Request is skipped and a valid Request
after it is processed identically. -/
theorem C5_witness :
    processIteration none w5iter wls = ⟨[], none, none, wls, false⟩ ∧
    start_delta_downloader_loop none [w5iter, w5next] wls
      = start_delta_downloader_loop none [w5next] wls :=
  C5_thm none w5iter [w5next] wls (by decide) (by decide)

/-- C6 (amended): the URL handed to the transport is base ++ requestURL
exactly when a base URL prefix is configured and the first colon of the URL
field, if any, is not immediately followed by two slashes; in every other
case (no base configured, or the first colon immediately followed by two
slashes) the request URL field is used verbatim; and for every dispatched
(non-malformed) request the transport receives exactly this composition of
the URL C string of the request payload. -/
theorem C6_thm :
    (∀ u, effectiveUrl none u = u) ∧
    (∀ b u, effectiveUrl (some b) u =
      if spec_firstColonMarker u then u else b ++ u) ∧
    (∀ (base : Option (List Nat)) (iter : Iteration) (ls : LoopState),
      0 ≤ iter.readRet →
      (iter.req.urllen + iter.req.rangelen : Int) ≤ iter.readRet →
      (processIteration base iter ls).effUrl
        = some (effectiveUrl base (cstr iter.req.data))) := by
  refine ⟨fun u => rfl, fun b u => ?_, fun base iter ls h0 hwf => ?_⟩
  · rw [spec_firstColonMarker_eq_urlAbsCheck]
    rfl
  · rw [processIteration_not_exited_eq base iter ls h0 hwf]

/-- C6 witness: concrete instances of the three parts of C6_thm. -/
theorem C6_witness :
    effectiveUrl none trickyUrl = trickyUrl ∧
    effectiveUrl (some mirrorBase) trickyUrl
      = (if spec_firstColonMarker trickyUrl then trickyUrl
          else mirrorBase ++ trickyUrl) ∧
    (processIteration none w1iter wls).effUrl
      = some (effectiveUrl none (cstr w1iter.req.data)) :=
  ⟨C6_thm.1 trickyUrl, C6_thm.2.1 mirrorBase trickyUrl,
    C6_thm.2.2 none w1iter wls (by decide) (by decide)⟩

/-- C7: for every valid Request whose terminal write succeeds, the Answer
sequence is zero or more DATA or HEADERS frames followed by exactly one
terminal frame with len 0, of type RANGE_COMPLETED exactly when open and
transfer both report success and RANGE_ERROR otherwise, and the whole
sequence precedes every frame of any later request. -/
theorem C7_thm (base : Option (List Nat)) (iter : Iteration)
    (rest : List Iteration) (ls : LoopState)
    (h0 : 0 ≤ iter.readRet)
    (hwf : (iter.req.urllen + iter.req.rangelen : Int) ≤ iter.readRet)
    (hterm : iter.wrTerminal = true) :
    (∀ f ∈ (processIteration base iter ls).answers.dropLast,
      f.type = AnswerType.RANGE_DATA ∨ f.type = AnswerType.RANGE_HEADERS) ∧
    (processIteration base iter ls).answers.getLast?.map
        (fun a => (a.id, a.type, a.len))
      = some (iter.req.id,
          if transferOutcome iter ⟨ls.buf, ls.scrc, 0⟩ then
            AnswerType.RANGE_COMPLETED
          else AnswerType.RANGE_ERROR,
          0) ∧
    start_delta_downloader_loop base (iter :: rest) ls
      = ((processIteration base iter ls).answers ++
          (start_delta_downloader_loop base rest
            (processIteration base iter ls).st).1,
        (start_delta_downloader_loop base rest
          (processIteration base iter ls).st).2) := by
  have heq := processIteration_not_exited_eq base iter ls h0 hwf
  have hans : (processIteration base iter ls).answers
      = (transferRun iter ⟨ls.buf, ls.scrc, 0⟩).2.1 ++
        [⟨iter.req.id,
          if (transferRun iter ⟨ls.buf, ls.scrc, 0⟩).2.2 then
            AnswerType.RANGE_COMPLETED
          else AnswerType.RANGE_ERROR,
          0, (transferRun iter ⟨ls.buf, ls.scrc, 0⟩).1.scrc,
          (transferRun iter ⟨ls.buf, ls.scrc, 0⟩).1.buf⟩] := by
    rw [heq]
    simp [hterm]
  refine ⟨?_, ?_, ?_⟩
  · intro f hf
    rw [hans, List.dropLast_concat] at hf
    exact (transferRun_frames _ _ f hf).2.1
  · rw [hans, List.getLast?_concat]
    rfl
  · have hex : (processIteration base iter ls).exited = false := by
      rw [heq]
    simp only [start_delta_downloader_loop]
    rw [hex]
    simp

/-- C7 witness: the terminal-frame part of C7_thm at a concrete successful
transfer. -/
theorem C7_witness :
    (processIteration none w3iter wls).answers.getLast?.map
        (fun a => (a.id, a.type, a.len))
      = some (w3iter.req.id,
          if transferOutcome w3iter ⟨wls.buf, wls.scrc, 0⟩ then
            AnswerType.RANGE_COMPLETED
          else AnswerType.RANGE_ERROR,
          0) :=
  (C7_thm none w3iter [] wls (by decide) (by decide) rfl).2.1

theorem wrdata_loop_first_fail (wr : Nat → Bool) (idv : Nat)
    (buffer : Nat → Nat) :
    ∀ fuel nb st j, nb ≤ fuel →
      wr (st.wcount + j) = false →
      (∀ i < j, wr (st.wcount + i) = true) →
      j * RANGE_PAYLOAD_SIZE < nb →
      (wrdata_loop wr idv buffer fuel nb st).2.1.length = j ∧
      (wrdata_loop wr idv buffer fuel nb st).2.2 = false := by
  intro fuel
  induction fuel with
  | zero =>
    intro nb st j hle hw hprev hlt
    have hnb : nb = 0 := Nat.le_zero.mp hle
    subst hnb
    omega
  | succ k ih =>
    intro nb st j hle hw hprev hlt
    cases nb with
    | zero => omega
    | succ m =>
      simp only [wrdata_loop]
      cases j with
      | zero =>
        have hw0 : wr st.wcount = false := by simpa using hw
        rw [if_neg (by simp [hw0])]
        exact ⟨rfl, rfl⟩
      | succ j' =>
        have hw0 : wr st.wcount = true := by
          have h := hprev 0 (Nat.succ_pos _)
          simpa using h
        rw [if_pos hw0]
        have hPS : RANGE_PAYLOAD_SIZE = 16384 := rfl
        rw [hPS] at hlt
        have hw' : wr (st.wcount + 1 + j') = false := by
          rw [show st.wcount + 1 + j' = st.wcount + (j' + 1) from by omega]
          exact hw
        have hprev' : ∀ i < j', wr (st.wcount + 1 + i) = true := by
          intro i hi
          rw [show st.wcount + 1 + i = st.wcount + (i + 1) from by omega]
          exact hprev (i + 1) (by omega)
        have hle' : m + 1 - min (m + 1) RANGE_PAYLOAD_SIZE ≤ k := by
          rw [hPS]
          omega
        have hlt' : j' * RANGE_PAYLOAD_SIZE
            < m + 1 - min (m + 1) RANGE_PAYLOAD_SIZE := by
          rw [hPS]
          omega
        obtain ⟨hL, hOk⟩ :=
          ih (m + 1 - min (m + 1) RANGE_PAYLOAD_SIZE)
            ⟨memcpyF st.buf buffer (min (m + 1) RANGE_PAYLOAD_SIZE),
              crc32 0 (firstBytes (min (m + 1) RANGE_PAYLOAD_SIZE)
                (memcpyF st.buf buffer (min (m + 1) RANGE_PAYLOAD_SIZE))),
              st.wcount + 1⟩
            j' hle' hw' hprev' hlt'
        exact ⟨by simpa using hL, hOk⟩

/-- C8: a mid-stream IPC write failure makes the data callback stop at once
with return value 0 (the stop signal) after exactly the frames already
delivered, and the failed transfer is answered with a terminal RANGE_ERROR
frame while the loop survives and processes the following requests exactly
as usual. -/
theorem C8_thm :
    (∀ (wr : Nat → Bool) (st : DwlState) (idv : Nat) (buffer : Nat → Nat)
        (size nmemb j : Nat),
      wr (st.wcount + j) = false →
      (∀ i < j, wr (st.wcount + i) = true) →
      j * RANGE_PAYLOAD_SIZE < nmemb * size →
      (wrdata_callback wr st idv 206 buffer size nmemb).2.1.length = j ∧
      (wrdata_callback wr st idv 206 buffer size nmemb).2.2 = 0) ∧
    (∀ (base : Option (List Nat)) (iter : Iteration) (ls : LoopState)
        (rest : List Iteration),
      0 ≤ iter.readRet →
      (iter.req.urllen + iter.req.rangelen : Int) ≤ iter.readRet →
      iter.wrTerminal = true →
      transferOutcome iter ⟨ls.buf, ls.scrc, 0⟩ = false →
      (processIteration base iter ls).answers.getLast?.map
          (fun a => (a.id, a.type, a.len))
        = some (iter.req.id, AnswerType.RANGE_ERROR, 0) ∧
      (processIteration base iter ls).exited = false ∧
      start_delta_downloader_loop base (iter :: rest) ls
        = ((processIteration base iter ls).answers ++
            (start_delta_downloader_loop base rest
              (processIteration base iter ls).st).1,
          (start_delta_downloader_loop base rest
            (processIteration base iter ls).st).2)) := by
  constructor
  · intro wr st idv buffer size nmemb j hw hprev hlt
    have hnm : ¬ nmemb = 0 := by
      intro h
      rw [h] at hlt
      simp at hlt
    unfold wrdata_callback
    rw [if_neg hnm, if_neg (by omega : ¬ (206 : Nat) ≠ 206)]
    obtain ⟨hL, hOk⟩ := wrdata_loop_first_fail wr idv buffer (nmemb * size)
      (nmemb * size) st j (Nat.le_refl _) hw hprev hlt
    refine ⟨hL, ?_⟩
    simp [hOk]
  · intro base iter ls rest h0 hwf hterm hout
    have heq := processIteration_not_exited_eq base iter ls h0 hwf
    have hout2 : (transferRun iter ⟨ls.buf, ls.scrc, 0⟩).2.2 = false := hout
    have hans : (processIteration base iter ls).answers
        = (transferRun iter ⟨ls.buf, ls.scrc, 0⟩).2.1 ++
          [⟨iter.req.id, AnswerType.RANGE_ERROR, 0,
            (transferRun iter ⟨ls.buf, ls.scrc, 0⟩).1.scrc,
            (transferRun iter ⟨ls.buf, ls.scrc, 0⟩).1.buf⟩] := by
      rw [heq]
      simp [hterm, hout2]
    have hex : (processIteration base iter ls).exited = false := by
      rw [heq]
    refine ⟨?_, hex, ?_⟩
    · rw [hans, List.getLast?_concat]
      rfl
    · simp only [start_delta_downloader_loop]
      rw [hex]
      simp

/-- Concrete iteration for the C8 witness: status 206, a 3-byte body
delivery, and an IPC channel whose writes all fail. -/
def w8iter : Iteration :=
  ⟨8, ⟨4, 2, 4, [97, 0, 98]⟩,
    ⟨true, 206, [XferEvent.body (fun _ => 9) 1 3], true⟩,
    fun _ => false, true⟩

/-- C8 witness: with the first IPC write failing, the concrete callback
invocation emits no frame and returns 0, and the concrete failed transfer is
answered by a terminal RANGE_ERROR frame. -/
theorem C8_witness :
    ((wrdata_callback (fun _ => false) c2init 7 206 (fun _ => 9) 1 3).2.1.length
        = 0 ∧
      (wrdata_callback (fun _ => false) c2init 7 206 (fun _ => 9) 1 3).2.2 = 0) ∧
    (processIteration none w8iter wls).answers.getLast?.map
        (fun a => (a.id, a.type, a.len))
      = some (w8iter.req.id, AnswerType.RANGE_ERROR, 0) :=
  ⟨C8_thm.1 (fun _ => false) c2init 7 (fun _ => 9) 1 3 0 rfl
      (fun i hi => absurd hi (Nat.not_lt_zero i)) (by decide),
    (C8_thm.2 none w8iter wls [] (by decide) (by decide) rfl (by decide)).1⟩

theorem delta_callback_headers_emits (wr : Nat → Bool) (st : DwlState)
    (idv : Nat) (buffer : Nat → Nat) (size nitems : Nat)
    (hw : wr st.wcount = true) :
    (delta_callback_headers wr st idv buffer size nitems).2.1
      = [⟨idv, AnswerType.RANGE_HEADERS,
          min (size * nitems) (RANGE_PAYLOAD_SIZE - 2) + 1, st.scrc,
          setF (memcpyF st.buf buffer
              (min (size * nitems) (RANGE_PAYLOAD_SIZE - 2)))
            (min (size * nitems) (RANGE_PAYLOAD_SIZE - 2) + 1) 0⟩] := by
  unfold delta_callback_headers
  rw [if_pos hw]

theorem runEvents_header_step (wr : Nat → Bool) (idv status : Nat)
    (buffer : Nat → Nat) (size nitems : Nat) (es : List XferEvent)
    (st : DwlState) (hw : wr st.wcount = true) :
    runEvents wr idv status (XferEvent.header buffer size nitems :: es) st
      = (let r := delta_callback_headers wr st idv buffer size nitems
        let r2 := runEvents wr idv status es r.1
        (r2.1, r.2.1 ++ r2.2.1, r2.2.2)) := by
  have hr : (delta_callback_headers wr st idv buffer size nitems).2.2
      = nitems * size := by
    unfold delta_callback_headers
    rw [if_pos hw]
  simp only [runEvents]
  rw [if_pos hr]

/-- C9: the header callback never inspects the HTTP response status; on a
non-206 transfer that delivers a header line (over a working IPC channel)
followed by nonempty body data, the first Answer emitted is a HEADERS frame
with the capped-and-terminated length, even though the transfer is rejected
and ends with a terminal RANGE_ERROR frame. -/
theorem C9_thm (base : Option (List Nat)) (iter : Iteration) (ls : LoopState)
    (hbuf : Nat → Nat) (hsz hni : Nat) (es : List XferEvent)
    (hs : iter.tr.status ≠ 206)
    (hopen : iter.tr.openOk = true)
    (hev : iter.tr.events = XferEvent.header hbuf hsz hni :: es)
    (hwr : iter.wr 0 = true)
    (bf : Nat → Nat) (sz nm : Nat)
    (hmem : XferEvent.body bf sz nm ∈ es) (hpos : 0 < sz * nm)
    (h0 : 0 ≤ iter.readRet)
    (hwf : (iter.req.urllen + iter.req.rangelen : Int) ≤ iter.readRet)
    (hterm : iter.wrTerminal = true) :
    (processIteration base iter ls).answers.head?.map
        (fun a => (a.id, a.type, a.len))
      = some (iter.req.id, AnswerType.RANGE_HEADERS,
          min (hsz * hni) (RANGE_PAYLOAD_SIZE - 2) + 1) ∧
    (processIteration base iter ls).answers.getLast?.map
        (fun a => (a.id, a.type, a.len))
      = some (iter.req.id, AnswerType.RANGE_ERROR, 0) := by
  have heq := processIteration_not_exited_eq base iter ls h0 hwf
  have hmem' : XferEvent.body bf sz nm ∈ iter.tr.events := by
    rw [hev]
    exact List.mem_cons_of_mem _ hmem
  have hout : (transferRun iter ⟨ls.buf, ls.scrc, 0⟩).2.2 = false :=
    transferOutcome_non206 iter _ hs bf sz nm hmem' hpos
  have hans : (processIteration base iter ls).answers
      = (transferRun iter ⟨ls.buf, ls.scrc, 0⟩).2.1 ++
        [⟨iter.req.id, AnswerType.RANGE_ERROR, 0,
          (transferRun iter ⟨ls.buf, ls.scrc, 0⟩).1.scrc,
          (transferRun iter ⟨ls.buf, ls.scrc, 0⟩).1.buf⟩] := by
    rw [heq]
    simp [hterm, hout]
  have hw0 : iter.wr (⟨ls.buf, ls.scrc, 0⟩ : DwlState).wcount = true := hwr
  have hF : (transferRun iter ⟨ls.buf, ls.scrc, 0⟩).2.1
      = ⟨iter.req.id, AnswerType.RANGE_HEADERS,
          min (hsz * hni) (RANGE_PAYLOAD_SIZE - 2) + 1, ls.scrc,
          setF (memcpyF ls.buf hbuf
              (min (hsz * hni) (RANGE_PAYLOAD_SIZE - 2)))
            (min (hsz * hni) (RANGE_PAYLOAD_SIZE - 2) + 1) 0⟩ ::
        (runEvents iter.wr iter.req.id iter.tr.status es
          (delta_callback_headers iter.wr ⟨ls.buf, ls.scrc, 0⟩ iter.req.id
            hbuf hsz hni).1).2.1 := by
    unfold transferRun
    rw [hopen]
    simp only [if_true]
    rw [hev, runEvents_header_step _ _ _ _ _ _ _ _ hw0]
    simp only
    rw [delta_callback_headers_emits _ _ _ _ _ _ hw0]
    rfl
  constructor
  · rw [hans, hF]
    rfl
  · rw [hans, List.getLast?_concat]
    rfl

/-- Concrete iteration for the C9 witness: status 200, one header line then
a nonempty body delivery, all IPC writes succeeding. -/
def w9iter : Iteration :=
  ⟨8, ⟨5, 2, 4, [97, 0, 98]⟩,
    ⟨true, 200,
      [XferEvent.header (fun i => [88, 89].getD i 0) 1 2,
        XferEvent.body (fun _ => 9) 1 3],
      true⟩,
    fun _ => true, true⟩

/-- C9 witness: the concrete rejected non-206 transfer still has a HEADERS
frame first and ends with a terminal RANGE_ERROR frame. -/
theorem C9_witness :
    (processIteration none w9iter wls).answers.head?.map
        (fun a => (a.id, a.type, a.len))
      = some (w9iter.req.id, AnswerType.RANGE_HEADERS,
          min (1 * 2) (RANGE_PAYLOAD_SIZE - 2) + 1) ∧
    (processIteration none w9iter wls).answers.getLast?.map
        (fun a => (a.id, a.type, a.len))
      = some (w9iter.req.id, AnswerType.RANGE_ERROR, 0) :=
  C9_thm none w9iter wls (fun i => [88, 89].getD i 0) 1 2
    [XferEvent.body (fun _ => 9) 1 3] (by decide) rfl rfl rfl
    (fun _ => 9) 1 3 (List.Mem.head _) (by decide) (by decide) (by decide) rfl

/-- C10: a zero-byte read on the control channel never terminates the
worker: the fatal exit is taken exactly when the read returns a negative
value, and a zero-byte read whose stale length fields are nonzero is
classified malformed, produces no Answer and lets the loop continue
unchanged. -/
theorem C10_thm :
    (∀ (base : Option (List Nat)) (iter : Iteration) (ls : LoopState),
      (processIteration base iter ls).exited = true ↔ iter.readRet < 0) ∧
    (∀ (base : Option (List Nat)) (iter : Iteration) (ls : LoopState)
        (rest : List Iteration),
      iter.readRet = 0 → 0 < iter.req.urllen + iter.req.rangelen →
      (processIteration base iter ls).answers = [] ∧
      start_delta_downloader_loop base (iter :: rest) ls
        = start_delta_downloader_loop base rest ls) := by
  constructor
  · intro base iter ls
    constructor
    · intro h
      by_contra hr
      have h0 : 0 ≤ iter.readRet := by omega
      by_cases h2 : (iter.req.urllen + iter.req.rangelen : Int) > iter.readRet
      · rw [processIteration_malformed base iter ls h0 h2] at h
        simp at h
      · rw [processIteration_not_exited_eq base iter ls h0 (by omega)] at h
        simp at h
    · intro h
      unfold processIteration
      rw [if_pos h]
  · intro base iter ls rest hr hsum
    have hm : (iter.req.urllen + iter.req.rangelen : Int) > iter.readRet := by
      omega
    have hp := processIteration_malformed base iter ls (by omega) hm
    exact ⟨by rw [hp], loop_skip base iter rest ls hp⟩

/-- Concrete iteration for the C10 witness: a zero-byte read with stale
nonzero length fields. -/
def w10iter : Iteration :=
  ⟨0, ⟨6, 2, 3, [97, 0, 98]⟩, ⟨true, 206, [], true⟩, fun _ => true, true⟩

/-- C10 witness: concrete instances of the two parts of C10_thm. -/
theorem C10_witness :
    ((processIteration none w10iter wls).exited = true ↔
      w10iter.readRet < 0) ∧
    (processIteration none w10iter wls).answers = [] ∧
    start_delta_downloader_loop none [w10iter] wls
      = start_delta_downloader_loop none [] wls :=
  ⟨C10_thm.1 none w10iter wls, C10_thm.2 none w10iter wls [] rfl (by decide)⟩

end DeltaDownloader
